import Mathlib

/-!
Verification of the schema-inference and storage-backend decision core of
`backend/structured_data_pipeline.py`.

The Python module is shallowly embedded below: parsed JSON payloads become the
recursive `Value` type, the analysis dictionary becomes the `Analysis` record,
and each method of `SchemaAnalyzer`, `DatabaseDecisionEngine`, `SchemaInferrer`,
`SqlSchemaGenerator`, `NoSqlSchemaGenerator` and `SchemaManifestManager` becomes
an executable Lean function translated from its source.  Python dictionaries
are ordered association lists, Python sets are modelled as first-seen-order
deduplicated lists (set iteration order in the source is arbitrary), and the
MongoDB collection behind the manifest manager is modelled as an association
list keyed by `file_id`.
-/

set_option maxHeartbeats 1000000

/-! ### String helpers

The source uses Python's `str.replace`, `str.endswith`, `in` (substring test),
`str.lower`/`str.upper` and `', '.join`.  These are re-implemented over
character lists so that they compute by kernel reduction. -/

def strEndsWith (s suf : String) : Bool :=
  suf.data.isSuffixOf s.data

def strStartsWithB (s pre : String) : Bool :=
  pre.data.isPrefixOf s.data

/-- Substring containment, Python's `pat in s`. -/
def strContainsSub (s pat : String) : Bool :=
  let rec go : List Char → Bool
    | [] => pat.data.isEmpty
    | c :: rest => pat.data.isPrefixOf (c :: rest) || go rest
  go s.data

/-- Replace every occurrence of a (non-empty) pattern, Python's `str.replace`.
Each step consumes at least one character, so the input length is enough fuel
for structural recursion. -/
def replaceCharsAux (pat rep : List Char) : Nat → List Char → List Char
  | _, [] => []
  | 0, l => l
  | n + 1, c :: rest =>
    if pat ≠ [] ∧ pat.isPrefixOf (c :: rest) then
      rep ++ replaceCharsAux pat rep n (List.drop (pat.length - 1) rest)
    else
      c :: replaceCharsAux pat rep n rest

def replaceChars (pat rep l : List Char) : List Char :=
  replaceCharsAux pat rep l.length l

def strReplace (s pat rep : String) : String :=
  ⟨replaceChars pat.data rep.data s.data⟩

def strToLower (s : String) : String := ⟨s.data.map Char.toLower⟩

def strToUpper (s : String) : String := ⟨s.data.map Char.toUpper⟩

/-- Python's `sep.join xs`. -/
def joinSep (sep : String) : List String → String
  | [] => ""
  | [s] => s
  | s :: rest => s ++ sep ++ joinSep sep rest

/-- Iteration order of a Python `set` built by successive `add`s, modelled as
first-seen order. -/
def dedupFirstSeen (l : List String) : List String :=
  l.foldl (fun acc x => if acc.contains x then acc else acc ++ [x]) []

/-- Python set equality `set a == set b` on key lists. -/
def listSetEq (a b : List String) : Bool :=
  a.all (fun x => b.contains x) && b.all (fun x => a.contains x)

/-! ### Value model

A parsed JSON/CSV/XML payload as handed to the analyzer: the tagged union of
Python `None`/`bool`/`int`/`float`/`str`/`list`/`dict` values.  Python dicts
preserve insertion order, hence objects are ordered association lists. -/

inductive Value where
  | null : Value
  | bool (b : Bool) : Value
  | int (n : Int) : Value
  | float (q : Int) : Value
  | str (s : String) : Value
  | arr (elems : List Value) : Value
  | obj (fields : List (String × Value)) : Value

/-- A Python dict value: ordered key/value pairs. -/
abbrev Obj := List (String × Value)

/-- Python's `type(v).__name__` for the values the pipeline distinguishes. -/
def typeName : Value → String
  | .null => "NoneType"
  | .bool _ => "bool"
  | .int _ => "int"
  | .float _ => "float"
  | .str _ => "str"
  | .arr _ => "list"
  | .obj _ => "dict"

def isNullV : Value → Bool
  | .null => true
  | _ => false

def isObjV : Value → Bool
  | .obj _ => true
  | _ => false

def isArrV : Value → Bool
  | .arr _ => true
  | _ => false

/-- `isinstance(v, (str, int, float, bool, type(None)))`. -/
def isPrimV : Value → Bool
  | .null => true
  | .bool _ => true
  | .int _ => true
  | .float _ => true
  | .str _ => true
  | _ => false

def objFieldsOf : Value → Obj
  | .obj o => o
  | _ => []

def keysOf (o : Obj) : List String := o.map Prod.fst

/-- Python's `k in obj`. -/
def containsKey (o : Obj) (k : String) : Bool :=
  (o.find? (fun p => p.1 == k)).isSome

/-- Python's `obj.get(k)` (default `None`). -/
def getVal (o : Obj) (k : String) : Value :=
  match o.find? (fun p => p.1 == k) with
  | some p => p.2
  | none => .null

/-- All key/value pairs of all objects, in iteration order. -/
def allPairs (data : List Obj) : Obj := data.flatten

/-- The `all_keys` set accumulated by `_analyze_array_of_objects`. -/
def allKeysList (data : List Obj) : List String :=
  dedupFirstSeen ((data.map keysOf).flatten)

/-- `key_counts[k]` accumulated by `_analyze_array_of_objects`. -/
def keyCount (data : List Obj) (k : String) : Nat :=
  ((data.map keysOf).flatten).count k

/-- `key_types[k]` (a set of type names) accumulated by
`_analyze_array_of_objects`. -/
def keyTypesOf (data : List Obj) (k : String) : List String :=
  dedupFirstSeen (((allPairs data).filter (fun p => p.1 == k)).map (fun p => typeName p.2))

/-! ### `SchemaAnalyzer._calculate_nesting_depth`

Faithful to the source: dict values recurse over every entry, list values
recurse over at most the first 10 elements (`obj[:10]`, here rendered as a
countdown starting at 10), primitives stop.  There is no depth cap in the
source. -/

mutual
def calculate_nesting_depth : Value → Nat → Nat
  | .obj o, d => if o.isEmpty then d else depthFields o (d + 1)
  | .arr l, d => if l.isEmpty then d else depthElems 10 l (d + 1)
  | _, d => d

def depthFields : List (String × Value) → Nat → Nat
  | [], _ => 0
  | (_, v) :: rest, d => max (calculate_nesting_depth v d) (depthFields rest d)

def depthElems : Nat → List Value → Nat → Nat
  | _, [], _ => 0
  | 0, _ :: _, _ => 0
  | k + 1, v :: rest, d => max (calculate_nesting_depth v d) (depthElems k rest d)
end

/-! ### The analysis record

The Python analysis dictionary; keys a given code path never sets keep their
initial value from `analyze_json_structure` (booleans start `False`, lists
empty), matching `analysis.get(...)` defaults used downstream. -/

structure RelCandidate where
  field : String
  type : String
  likely_foreign_key : Bool
  inferred_table : String
deriving DecidableEq

structure Analysis where
  data_type : String := ""
  is_array : Bool := false
  is_object : Bool := false
  is_primitive : Bool := false
  is_tabular : Bool := false
  is_uniform : Bool := false
  is_nested : Bool := false
  is_hierarchical : Bool := false
  nesting_depth : Nat := 0
  has_arrays_in_objects : Bool := false
  has_repeated_structures : Bool := false
  relationship_candidates : List RelCandidate := []
  array_length : Option Nat := none
  element_types : List (String × Nat) := []
  all_keys : List String := []
  required_fields : List String := []
  optional_fields : List String := []
  nested_fields : List String := []
  key_types : List (String × List String) := []
  keys : List String := []
  nested_keys : List String := []
  schema_evolution_expected : Bool := false
  prefer_sql : Bool := false
  prefer_nosql : Bool := false
  optimization_fields : List String := []
  query_fields : List String := []

/-- User-supplied metadata (`custom_metadata`) as read by
`_apply_metadata_hints`: a `description`, `tags`, and an optional `hints`
sub-dict carrying `optimize_by` / `query_fields`. -/
structure Metadata where
  description : String := ""
  tags : List String := []
  optimize_by : Option (List String) := none
  query_fields : Option (List String) := none

/-! ### `SchemaAnalyzer` -/

namespace SchemaAnalyzer

/-- Keys ending in `_id`/`Id`/`ID`, or exactly `id`, in `_detect_relationships`. -/
def isIdField (k : String) : Bool :=
  strEndsWith k "_id" || strEndsWith k "Id" || strEndsWith k "ID" || k == "id"

/-- `field.replace('_id', '').replace('Id', '').replace('ID', '')`. -/
def stripIdSuffix (k : String) : String :=
  strReplace (strReplace (strReplace k "_id" "") "Id" "") "ID" ""

/-- `SchemaAnalyzer._detect_relationships`. -/
def detect_relationships (data : List Obj) (all_keys : List String) : List RelCandidate :=
  (all_keys.filter isIdField).foldl (fun acc field =>
    let sample_values := ((data.take 50).filter (fun o => containsKey o field)).map
      (fun o => getVal o field)
    if sample_values.isEmpty then acc
    else
      let value_types := dedupFirstSeen
        ((sample_values.filter (fun v => !(isNullV v))).map typeName)
      match value_types with
      | [t] => acc ++ [{ field := field, type := t, likely_foreign_key := true,
                         inferred_table := stripIdSuffix field }]
      | _ => acc) []

/-- `SchemaAnalyzer._analyze_array_of_objects`, as an update of the analysis
record (Python's `dict.update`). -/
def analyze_array_of_objects (data : List Obj) (a : Analysis) : Analysis :=
  match data with
  | [] => a
  | d0 :: rest =>
    let objs := d0 :: rest
    let total := objs.length
    let allK := allKeysList objs
    let is_uniform := objs.all (fun o => listSetEq (keysOf o) (keysOf d0))
    let required := allK.filter (fun k => keyCount objs k = total)
    let optional := allK.filter (fun k => keyCount objs k < total)
    let nested := allK.filter (fun k =>
      (keyTypesOf objs k).contains "dict" || (keyTypesOf objs k).contains "list")
    let max_depth := ((objs.take 10).map
      (fun o => calculate_nesting_depth (.obj o) 0)).foldl max 0
    let rels := detect_relationships objs allK
    { a with
      is_tabular := is_uniform && nested.isEmpty,
      is_uniform := is_uniform,
      is_nested := !nested.isEmpty,
      nesting_depth := max_depth,
      all_keys := allK,
      required_fields := required,
      optional_fields := optional,
      nested_fields := nested,
      key_types := allK.map (fun k => (k, keyTypesOf objs k)),
      relationship_candidates := rels,
      has_arrays_in_objects := allK.any (fun k => (keyTypesOf objs k).contains "list") }

/-- Element-type histogram of `_analyze_array` (`defaultdict(int)` over the
first 100 elements). -/
def elementTypes (l : List Value) : List (String × Nat) :=
  (dedupFirstSeen (l.map typeName)).map (fun t => (t, (l.map typeName).count t))

/-- `SchemaAnalyzer._analyze_array`. -/
def analyze_array (l : List Value) (a : Analysis) : Analysis :=
  match l with
  | [] => { a with is_tabular := false, is_uniform := false, is_nested := false,
                   array_length := some 0 }
  | _ =>
    let a := { a with array_length := some l.length,
                      element_types := elementTypes (l.take 100) }
    if l.all isObjV then
      analyze_array_of_objects (l.map objFieldsOf) a
    else
      { a with is_nested := l.any (fun v => isObjV v || isArrV v) }

/-- `SchemaAnalyzer._analyze_object`. -/
def analyze_object (o : Obj) (a : Analysis) : Analysis :=
  let nested_keys := (o.filter (fun p => isObjV p.2 || isArrV p.2)).map Prod.fst
  let depth := calculate_nesting_depth (.obj o) 0
  { a with
    keys := keysOf o,
    key_types := o.map (fun p => (p.1, [typeName p.2])),
    nested_keys := nested_keys,
    is_nested := !nested_keys.isEmpty,
    nesting_depth := depth,
    is_hierarchical := depth > 2 }

/-- First hint of `_apply_metadata_hints`: schema evolution expected. -/
def applyEvolutionHint (a : Analysis) (d : String) : Analysis :=
  if strContainsSub d "schema_changes" || strContainsSub d "evolving" then
    { a with schema_evolution_expected := true }
  else a

/-- Second hint of `_apply_metadata_hints`: user prefers SQL. -/
def applySqlHint (a : Analysis) (d : String) (tags : List String) : Analysis :=
  if strContainsSub d "relational" || tags.contains "sql" then
    { a with prefer_sql := true }
  else a

/-- Third hint of `_apply_metadata_hints`: user prefers NoSQL. -/
def applyNoSqlHint (a : Analysis) (d : String) (tags : List String) : Analysis :=
  if tags.contains "nosql" || strContainsSub d "flexible" then
    { a with prefer_nosql := true }
  else a

/-- `hints.optimize_by` carried into the analysis. -/
def applyOptimizeHint (a : Analysis) (ob : Option (List String)) : Analysis :=
  match ob with
  | some fs => { a with optimization_fields := fs }
  | none => a

/-- `hints.query_fields` carried into the analysis. -/
def applyQueryHint (a : Analysis) (qf : Option (List String)) : Analysis :=
  match qf with
  | some fs => { a with query_fields := fs }
  | none => a

/-- `SchemaAnalyzer._apply_metadata_hints`, the hints applied in source
order to the lower-cased description. -/
def apply_metadata_hints (a : Analysis) (m : Metadata) : Analysis :=
  let d := strToLower m.description
  applyQueryHint
    (applyOptimizeHint
      (applyNoSqlHint (applySqlHint (applyEvolutionHint a d) d m.tags) d m.tags)
      m.optimize_by)
    m.query_fields

/-- The dispatch on the payload kind inside `analyze_json_structure`. -/
def analyzeDispatch (v : Value) (base : Analysis) : Analysis :=
  match v with
  | .arr l => analyze_array l base
  | .obj o => analyze_object o base
  | _ => base

/-- The initial analysis dictionary built at the top of
`analyze_json_structure`. -/
def baseAnalysis (v : Value) : Analysis :=
  { data_type := typeName v,
    is_array := isArrV v,
    is_object := isObjV v,
    is_primitive := isPrimV v,
    is_tabular := false, is_uniform := false, is_nested := false,
    is_hierarchical := false, nesting_depth := 0,
    has_arrays_in_objects := false, has_repeated_structures := false,
    relationship_candidates := [] }

/-- `SchemaAnalyzer.analyze_json_structure`. -/
def analyze_json_structure (v : Value) (metadata : Option Metadata) : Analysis :=
  match metadata with
  | some m => apply_metadata_hints (analyzeDispatch v (baseAnalysis v)) m
  | none => analyzeDispatch v (baseAnalysis v)

end SchemaAnalyzer

/-! ### `DatabaseDecisionEngine` -/

/-- The `recommendations` dictionary plus the chosen backend returned by
`DatabaseDecisionEngine.decide`. -/
structure DecisionResult where
  backend : String
  sql_score : Int
  nosql_score : Int
  confidence : Int
  reasons : List String
deriving DecidableEq

namespace DatabaseDecisionEngine

/-- Total `score_sql` accumulated by `decide`, factor by factor in source
order. -/
def sqlScore (a : Analysis) : Int :=
  (if a.is_uniform then 3 else 0)
  + (if a.is_tabular then 4 else 0)
  + (if a.nesting_depth = 0 then 2 else if a.nesting_depth ≤ 2 then 1 else 0)
  + (if a.relationship_candidates.isEmpty then 0 else 2)
  + (if a.prefer_sql then 5 else 0)

/-- Total `score_nosql` accumulated by `decide`, factor by factor in source
order. -/
def nosqlScore (a : Analysis) : Int :=
  (if a.is_uniform then 0 else 2)
  + (if a.nesting_depth = 0 then 0 else if a.nesting_depth ≤ 2 then 1 else 3)
  + (if a.has_arrays_in_objects then 2 else 0)
  + (if a.schema_evolution_expected then 3 else 0)
  + (if a.prefer_sql then 0 else if a.prefer_nosql then 5 else 0)
  + (if 10000 < a.array_length.getD 0 then 1 else 0)

/-- The `reasons` list accumulated by `decide`, in evaluation order. -/
def decideReasons (a : Analysis) : List String :=
  [if a.is_uniform then "Uniform structure favors SQL"
   else "Non-uniform structure favors NoSQL"]
  ++ (if a.is_tabular then ["Tabular data is ideal for SQL"] else [])
  ++ [if a.nesting_depth = 0 then "Flat structure suits SQL"
      else if a.nesting_depth ≤ 2 then "Shallow nesting works for both"
      else "Deep nesting favors NoSQL"]
  ++ (if a.relationship_candidates.isEmpty then []
      else ["Detected relationships favor SQL"])
  ++ (if a.has_arrays_in_objects then
      ["Arrays in objects complicate SQL, favor NoSQL"] else [])
  ++ (if a.schema_evolution_expected then
      ["Expected schema changes favor NoSQL"] else [])
  ++ (if a.prefer_sql then ["User preference for SQL"]
      else if a.prefer_nosql then ["User preference for NoSQL"] else [])
  ++ (if 10000 < a.array_length.getD 0 then
      ["Large dataset may benefit from NoSQL scalability"] else [])

/-- `DatabaseDecisionEngine.decide`:
`decision = 'sql' if score_sql > score_nosql else 'nosql'`,
`confidence = abs(score_sql - score_nosql)`. -/
def decide (a : Analysis) : DecisionResult :=
  { backend := if sqlScore a > nosqlScore a then "sql" else "nosql",
    sql_score := sqlScore a,
    nosql_score := nosqlScore a,
    confidence := |sqlScore a - nosqlScore a|,
    reasons := decideReasons a }

end DatabaseDecisionEngine

/-! ### Logical schema data model (the dictionaries built by `SchemaInferrer`)

Missing dict keys read through `.get(...)` as falsy/`None`; they are modelled
as fields with `false`/`none` defaults. -/

structure FieldDef where
  name : String
  type : String
  required : Bool := false
  nullable : Bool := false
  is_primary_key : Bool := false
  is_foreign_key : Bool := false
  auto_increment : Bool := false
  unique : Bool := false
  default : Option String := none
deriving DecidableEq

structure IndexDef where
  name : String
  fields : List String
  type : String
  unique : Bool := false
deriving DecidableEq

structure Relationship where
  type : String
  field : String
  references_table : String
  references_field : String
deriving DecidableEq

structure Table where
  name : String
  type : String
  fields : List FieldDef := []
  indexes : List IndexDef := []
  relationships : List Relationship := []
deriving DecidableEq

/-- The schema dictionary produced by `SchemaInferrer.infer_schema` (the parts
the generators read: `version`, `type`, `tables`). -/
structure Schema where
  file_type : String := ""
  version : String := "1.0"
  type : String := ""
  tables : List Table := []
  fields : List FieldDef := []
deriving DecidableEq

/-! ### `SchemaInferrer` -/

namespace SchemaInferrer

/-- `SchemaInferrer._python_type_to_sql_type`. -/
def python_type_to_sql_type (python_type : String) : String :=
  if python_type == "str" then "text"
  else if python_type == "int" then "integer"
  else if python_type == "float" then "real"
  else if python_type == "bool" then "boolean"
  else if python_type == "NoneType" then "text"
  else if python_type == "dict" then "jsonb"
  else if python_type == "list" then "jsonb"
  else "text"

/-- `SchemaInferrer._resolve_primary_type`. -/
def resolve_primary_type (types : List String) : String :=
  match types with
  | [] => "text"
  | t :: _ =>
    if (dedupFirstSeen types).length = 1 then python_type_to_sql_type t
    else if types.contains "str" then "text"
    else if types.contains "float" then "real"
    else if types.contains "int" then "integer"
    else "text"

/-- The unique index `_suggest_indexes` emits for a primary-key field. -/
def pkIndexFor (f : FieldDef) : IndexDef :=
  { name := "idx_pk_" ++ f.name, fields := [f.name], type := "primary", unique := true }

/-- The non-unique index `_suggest_indexes` emits for a foreign-key field. -/
def fkIndexFor (f : FieldDef) : IndexDef :=
  { name := "idx_fk_" ++ f.name, fields := [f.name], type := "index", unique := false }

/-- The first loop of `_suggest_indexes`: always index primary and foreign
keys. -/
def pkfkStep (acc : List IndexDef) (f : FieldDef) : List IndexDef :=
  if f.is_primary_key then acc ++ [pkIndexFor f]
  else if f.is_foreign_key then acc ++ [fkIndexFor f]
  else acc

/-- The second loop of `_suggest_indexes`: index `optimization_fields` named in
the metadata hints. -/
def optStep (fields : List FieldDef) (acc : List IndexDef) (opt : String) : List IndexDef :=
  if fields.any (fun f => f.name == opt) then
    acc ++ [{ name := "idx_opt_" ++ opt, fields := [opt], type := "index", unique := false }]
  else acc

/-- The `common_index_fields` allowlist of `_suggest_indexes`. -/
def common_index_fields : List String :=
  ["email", "username", "created_at", "updated_at", "timestamp", "date"]

/-- The third loop of `_suggest_indexes`: index common query fields not
already indexed. -/
def commonStep (acc : List IndexDef) (f : FieldDef) : List IndexDef :=
  if common_index_fields.contains f.name
      && !(acc.any (fun idx => idx.fields.contains f.name)) then
    acc ++ [{ name := "idx_" ++ f.name, fields := [f.name], type := "index", unique := false }]
  else acc

/-- `SchemaInferrer._suggest_indexes`: primary keys get a unique index, foreign
keys a non-unique one, then `optimization_fields`, then the fixed common-field
allowlist (skipping fields already indexed so far). -/
def suggest_indexes (fields : List FieldDef) (a : Analysis) : List IndexDef :=
  let pkfk := fields.foldl pkfkStep []
  let withOpt := a.optimization_fields.foldl (optStep fields) pkfk
  fields.foldl commonStep withOpt

/-- The per-key body of the main-table field loop in
`_infer_tables_from_json_array`, accumulating fields and relationships. -/
def mainFieldStep (key_types : List (String × List String))
    (required_fields nested_fields : List String)
    (acc : List FieldDef × List Relationship) (key : String) :
    List FieldDef × List Relationship :=
  if nested_fields.contains key then acc
  else
    let field_types := match key_types.find? (fun p => p.1 == key) with
      | some p => p.2
      | none => ["str"]
    let primary_type := resolve_primary_type field_types
    let base : FieldDef :=
      { name := key, type := primary_type,
        required := required_fields.contains key,
        nullable := !(required_fields.contains key) }
    if key == "id" || strEndsWith key "_id" then
      let fd := { base with is_primary_key := key == "id",
                            is_foreign_key := key != "id" }
      let rels := if key != "id" then
          acc.2 ++ [{ type := "many_to_one", field := key,
                      references_table := strReplace key "_id" "",
                      references_field := "id" }]
        else acc.2
      (acc.1 ++ [fd], rels)
    else (acc.1 ++ [base], acc.2)

/-- `SchemaInferrer._create_related_table_from_array` (junction table for an
array-valued nested field). -/
def create_related_table_from_array (field_name : String) (sample_values : List Value)
    (parent_table : String) : Table :=
  let baseFields : List FieldDef :=
    [{ name := "id", type := "integer", is_primary_key := true, auto_increment := true },
     { name := parent_table ++ "_id", type := "integer", is_foreign_key := true }]
  let extra : List FieldDef :=
    match sample_values with
    | [] => []
    | v0 :: _ =>
      let first_elem := match v0 with
        | .arr (e :: _) => e
        | _ => Value.null
      match first_elem with
      | .obj fs => fs.map (fun p =>
          { name := p.1, type := python_type_to_sql_type (typeName p.2),
            required := false })
      | e => [{ name := "value", type := python_type_to_sql_type (typeName e),
                required := false }]
  { name := parent_table ++ "_" ++ field_name,
    type := "junction",
    fields := baseFields ++ extra,
    indexes := [],
    relationships := [{ type := "many_to_one", field := parent_table ++ "_id",
                        references_table := parent_table, references_field := "id" }] }

/-- `SchemaInferrer._create_related_table_from_object` (related table for an
object-valued nested field). -/
def create_related_table_from_object (field_name : String) (sample_values : List Value)
    (parent_table : String) : Table :=
  let baseFields : List FieldDef :=
    [{ name := "id", type := "integer", is_primary_key := true, auto_increment := true },
     { name := parent_table ++ "_id", type := "integer", is_foreign_key := true }]
  let objSamples := (sample_values.filter isObjV).map objFieldsOf
  let allK := allKeysList objSamples
  let extra : List FieldDef := allK.map (fun k =>
    let sample_value := match (objSamples.find? (fun o => containsKey o k)) with
      | some o => getVal o k
      | none => Value.null
    { name := k, type := python_type_to_sql_type (typeName sample_value),
      required := false })
  { name := field_name,
    type := "related",
    fields := baseFields ++ extra,
    indexes := [],
    relationships := [{ type := "many_to_one", field := parent_table ++ "_id",
                        references_table := parent_table, references_field := "id" }] }

/-- The nested-field loop of `_infer_tables_from_json_array`: a sample of the
field's values decides between a junction table (first sampled value is a
list), a related table (first sampled value is a dict), or nothing. -/
def nestedFieldTable (data : List Obj) (parent_table : String)
    (nested_field : String) : List Table :=
  let sample_values := ((data.take 10).filter (fun o => containsKey o nested_field)).map
    (fun o => getVal o nested_field)
  match sample_values with
  | [] => []
  | v0 :: _ =>
    if isArrV v0 then
      [create_related_table_from_array nested_field sample_values parent_table]
    else if isObjV v0 then
      [create_related_table_from_object nested_field sample_values parent_table]
    else []

/-- `SchemaInferrer._infer_tables_from_json_array`. -/
def infer_tables_from_json_array (data : List Obj) (analysis : Analysis) : List Table :=
  let all_keys := analysis.all_keys
  let key_types := analysis.key_types
  let required_fields := analysis.required_fields
  let nested_fields := analysis.nested_fields
  let fr := all_keys.foldl (mainFieldStep key_types required_fields nested_fields) ([], [])
  let main_table : Table :=
    { name := "main_data", type := "primary",
      fields := fr.1,
      indexes := suggest_indexes fr.1 analysis,
      relationships := fr.2 }
  main_table :: (nested_fields.map (nestedFieldTable data main_table.name)).flatten

/-- `SchemaInferrer._infer_fields_from_object`. -/
def infer_fields_from_object (o : Obj) : List FieldDef :=
  o.map (fun p =>
    { name := p.1, type := python_type_to_sql_type (typeName p.2),
      required := true, nullable := isNullV p.2 })

/-- `SchemaInferrer._infer_json_schema` (`created_at`/`file_type` bookkeeping of
`infer_schema` is threaded by the caller; the JSON branch fills `type` and
either `tables` or `fields`). -/
def infer_json_schema (v : Value) (analysis : Analysis) : Schema :=
  let base : Schema := { file_type := "json", type := "json", version := "1.0" }
  match v with
  | .arr (e :: rest) =>
    if isObjV e then
      { base with tables := infer_tables_from_json_array ((e :: rest).map objFieldsOf) analysis }
    else base
  | .obj o => { base with fields := infer_fields_from_object o }
  | _ => base

end SchemaInferrer

/-! ### `SqlSchemaGenerator` -/

/-- One entry of the `sql_statements` list. -/
structure SqlStmt where
  type : String
  table : String
  index : Option String := none
  sql : String
deriving DecidableEq

structure SqlArtifact where
  sql_statements : List SqlStmt
  execution_order : List String
  table_count : Nat
deriving DecidableEq

namespace SqlSchemaGenerator

/-- The PostgreSQL type mapping inside `_generate_field_definition`. -/
def pgTypeOf (t : String) : String :=
  if t == "INTEGER" || t == "REAL" || t == "TEXT" || t == "BOOLEAN"
     || t == "JSONB" || t == "TIMESTAMP" || t == "DATE" then t
  else "TEXT"

/-- `SqlSchemaGenerator._generate_field_definition`. -/
def generate_field_definition (field : FieldDef) : String :=
  let data_type := pgTypeOf (strToUpper field.type)
  let definition := field.name ++ " " ++ data_type
  let definition :=
    if field.is_primary_key && field.auto_increment then field.name ++ " SERIAL"
    else definition
  let definition :=
    if field.required && !field.is_primary_key then definition ++ " NOT NULL"
    else definition
  let definition := if field.unique then definition ++ " UNIQUE" else definition
  match field.default with
  | some d => definition ++ " DEFAULT " ++ d
  | none => definition

/-- The `primary_keys` list collected by `_generate_create_table`. -/
def primaryKeysOf (table : Table) : List String :=
  (table.fields.filter (fun f => f.is_primary_key)).map (fun f => f.name)

/-- The inline `PRIMARY KEY (...)` clause appended by `_generate_create_table`. -/
def mkPrimaryKeyClause (pks : List String) : String :=
  "PRIMARY KEY (" ++ joinSep ", " pks ++ ")"

/-- The `field_defs` list of `_generate_create_table`: one definition per field
followed by the `PRIMARY KEY (...)` clause when any field is a primary key. -/
def createTableClauses (table : Table) : List String :=
  let defs := table.fields.map generate_field_definition
  let pks := primaryKeysOf table
  if pks.isEmpty then defs else defs ++ [mkPrimaryKeyClause pks]

/-- `SqlSchemaGenerator._generate_create_table`. -/
def generate_create_table (table : Table) (tpfx : String) : String :=
  let table_name := tpfx ++ table.name
  "CREATE TABLE IF NOT EXISTS " ++ table_name ++ " (\n    "
    ++ joinSep ",\n    " (createTableClauses table) ++ "\n);"

/-- `SqlSchemaGenerator._generate_create_index`. -/
def generate_create_index (index : IndexDef) (table_name tpfx : String) : String :=
  let full_table_name := tpfx ++ table_name
  let index_name := tpfx ++ index.name
  let fs := joinSep ", " index.fields
  let uniq := if index.unique then "UNIQUE " else ""
  "CREATE " ++ uniq ++ "INDEX IF NOT EXISTS " ++ index_name ++ " ON "
    ++ full_table_name ++ " (" ++ fs ++ ");"

/-- `SqlSchemaGenerator._generate_foreign_key`. -/
def generate_foreign_key (relationship : Relationship) (table_name tpfx : String) : String :=
  let full_table_name := tpfx ++ table_name
  let ref_table := tpfx ++ relationship.references_table
  "ALTER TABLE " ++ full_table_name ++ " \nADD CONSTRAINT fk_" ++ table_name ++ "_"
    ++ relationship.field ++ " \nFOREIGN KEY (" ++ relationship.field ++ ") REFERENCES "
    ++ ref_table ++ "(" ++ relationship.references_field ++ ");"

/-- The `create_table` statements emitted by the first loop of
`generate_sql_schema`. -/
def createStmts (tables : List Table) (tpfx : String) : List SqlStmt :=
  tables.map (fun t =>
    { type := "create_table", table := t.name, sql := generate_create_table t tpfx })

/-- The `create_index` statements emitted by the second loop (primary-type
indexes are skipped: the primary key is already inline in `CREATE TABLE`). -/
def indexStmts (tables : List Table) (tpfx : String) : List SqlStmt :=
  (tables.map (fun t =>
    (t.indexes.filter (fun i => i.type != "primary")).map (fun i =>
      { type := "create_index", table := t.name, index := some i.name,
        sql := generate_create_index i t.name tpfx }))).flatten

/-- The `add_foreign_key` statements emitted by the third loop (only
`many_to_one`/`one_to_one` relationships produce one). -/
def fkStmts (tables : List Table) (tpfx : String) : List SqlStmt :=
  (tables.map (fun t =>
    (t.relationships.filter (fun r => r.type == "many_to_one" || r.type == "one_to_one")).map
      (fun r =>
        { type := "add_foreign_key", table := t.name,
          sql := generate_foreign_key r t.name tpfx }))).flatten

/-- `SqlSchemaGenerator.generate_sql_schema`. -/
def generate_sql_schema (schema : Schema) (tpfx : String) : SqlArtifact :=
  let tables := schema.tables
  let sql_statements := createStmts tables tpfx ++ indexStmts tables tpfx ++ fkStmts tables tpfx
  { sql_statements := sql_statements,
    execution_order := sql_statements.map (fun s => s.sql),
    table_count := tables.length }

end SqlSchemaGenerator

/-! ### `NoSqlSchemaGenerator` -/

/-- One property of the BSON-like document structure. -/
structure BsonProp where
  bsonType : String
  description : String
deriving DecidableEq

structure DocStructure where
  bsonType : String
  properties : List (String × BsonProp)
deriving DecidableEq

structure ValidationProp where
  bsonTypes : List String
  description : String
deriving DecidableEq

/-- The `$jsonSchema` validator produced by `_generate_validation_rules`. -/
structure JsonSchemaRules where
  bsonType : String
  required : List String
  properties : List (String × ValidationProp)
deriving DecidableEq

structure NoSqlArtifact where
  collection_name : String
  schema_version : String
  document_structure : Option DocStructure
  indexes : List IndexDef
  validation_rules : JsonSchemaRules
deriving DecidableEq

namespace NoSqlSchemaGenerator

/-- `NoSqlSchemaGenerator._sql_type_to_bson_type`. -/
def sql_type_to_bson_type (sql_type : String) : String :=
  let t := strToLower sql_type
  if t == "integer" then "int"
  else if t == "real" then "double"
  else if t == "text" then "string"
  else if t == "boolean" then "bool"
  else if t == "jsonb" then "object"
  else if t == "timestamp" then "date"
  else if t == "date" then "date"
  else "string"

/-- `NoSqlSchemaGenerator._build_document_structure`. -/
def build_document_structure (schema : Schema) : DocStructure :=
  { bsonType := "object",
    properties := match schema.tables with
      | [] => []
      | main :: _ => main.fields.map (fun f =>
          (f.name, { bsonType := sql_type_to_bson_type f.type,
                     description := "Field " ++ f.name })) }

/-- `NoSqlSchemaGenerator._generate_indexes`: deliberately returns no indexes
(MongoDB's automatic `_id` index and the pre-existing `file_id` index are
relied upon instead). -/
def generate_indexes (_schema : Schema) : List IndexDef := []

/-- `NoSqlSchemaGenerator._generate_validation_rules` (a fixed validator). -/
def generate_validation_rules (_schema : Schema) : JsonSchemaRules :=
  { bsonType := "object",
    required := ["file_id", "data", "created_at"],
    properties :=
      [("file_id", { bsonTypes := ["string"], description := "Unique file identifier" }),
       ("data", { bsonTypes := ["object", "array"], description := "Structured data content" }),
       ("created_at", { bsonTypes := ["string"], description := "Creation timestamp" })] }

/-- `NoSqlSchemaGenerator.generate_nosql_schema`. -/
def generate_nosql_schema (schema : Schema) (collection_name : String) : NoSqlArtifact :=
  { collection_name := collection_name,
    schema_version := schema.version,
    document_structure :=
      if schema.type == "json" then some (build_document_structure schema) else none,
    indexes := generate_indexes schema,
    validation_rules := generate_validation_rules schema }

end NoSqlSchemaGenerator

/-! ### `SchemaManifestManager`

The MongoDB collection is modelled as an association list keyed by `file_id`;
`update_one(..., {'$set': {'schema_manifest': m, 'updated_at': t}}, upsert=True)`
sets those two fields on the matching document (or inserts a fresh one),
leaving any other document content alone.  Timestamps are passed in explicitly
by the caller (`datetime.utcnow().isoformat()` in the source). -/

structure Manifest where
  file_id : String
  schema_version : String
  storage_backend : String
  schema : Schema
  metadata : List (String × String)
  created_at : String
  history : List String
deriving DecidableEq

structure StoredDoc where
  schema_manifest : Option Manifest := none
  updated_at : String := ""
deriving DecidableEq

abbrev ManifestStore := List (String × StoredDoc)

structure SaveResult where
  success : Bool
  manifest_id : Option String := none
deriving DecidableEq

namespace SchemaManifestManager

/-- The `$set` upsert performed by `save_manifest`. -/
def upsertManifest (store : ManifestStore) (file_id : String) (m : Manifest)
    (now : String) : ManifestStore :=
  if store.any (fun p => p.1 == file_id) then
    store.map (fun p =>
      if p.1 == file_id then (p.1, { p.2 with schema_manifest := some m, updated_at := now })
      else p)
  else
    store ++ [(file_id, { schema_manifest := some m, updated_at := now })]

/-- `SchemaManifestManager.save_manifest` (the available-database branch):
builds a fresh manifest — with `history` always the empty list — and upserts it
by `file_id`. -/
def save_manifest (store : ManifestStore) (file_id : String) (schema : Schema)
    (storage_backend : String) (metadata : List (String × String)) (now : String) :
    ManifestStore × SaveResult :=
  let manifest : Manifest :=
    { file_id := file_id,
      schema_version := schema.version,
      storage_backend := storage_backend,
      schema := schema,
      metadata := metadata,
      created_at := now,
      history := [] }
  (upsertManifest store file_id manifest now,
   { success := true, manifest_id := some file_id })

/-- `SchemaManifestManager.get_manifest`. -/
def get_manifest (store : ManifestStore) (file_id : String) : Option Manifest :=
  match store.find? (fun p => p.1 == file_id) with
  | some p => p.2.schema_manifest
  | none => none

end SchemaManifestManager

/-! # Verification of the claims -/

open SchemaAnalyzer DatabaseDecisionEngine SchemaInferrer SqlSchemaGenerator
open NoSqlSchemaGenerator SchemaManifestManager

/-! ## Concrete payloads used by several claims -/

/-- Scenario A of the spec:
`[{"id":1,"name":"Alice","order_id":101},{"id":2,"name":"Bob","order_id":102}]`. -/
def scenarioA : Value :=
  .arr [.obj [("id", .int 1), ("name", .str "Alice"), ("order_id", .int 101)],
        .obj [("id", .int 2), ("name", .str "Bob"), ("order_id", .int 102)]]

/-- Scenario A as the list of dicts handed to `_infer_tables_from_json_array`. -/
def dataA : List Obj :=
  [[("id", .int 1), ("name", .str "Alice"), ("order_id", .int 101)],
   [("id", .int 2), ("name", .str "Bob"), ("order_id", .int 102)]]

def analysisA : Analysis := analyze_json_structure scenarioA none

def schemaA : Schema := infer_json_schema scenarioA analysisA

def mainTableA : Table := schemaA.tables.getD 0 { name := "", type := "" }

/-! ## C1 — decision rule of `DatabaseDecisionEngine.decide` -/

/-- C1: for every `StructuralAnalysis` input, `decide` returns backend `sql`
exactly when `sql_score > nosql_score` (so on a tie, and whenever
`sql_score ≤ nosql_score`, the result is `nosql`), and the returned
`confidence` is the absolute difference of the two scores. -/
theorem c1_decide_backend_confidence (a : Analysis) :
    ((DatabaseDecisionEngine.decide a).backend = "sql"
      ↔ (DatabaseDecisionEngine.decide a).nosql_score < (DatabaseDecisionEngine.decide a).sql_score)
    ∧ ((DatabaseDecisionEngine.decide a).backend = "nosql"
      ↔ (DatabaseDecisionEngine.decide a).sql_score ≤ (DatabaseDecisionEngine.decide a).nosql_score)
    ∧ (DatabaseDecisionEngine.decide a).confidence
      = |(DatabaseDecisionEngine.decide a).sql_score - (DatabaseDecisionEngine.decide a).nosql_score| := by
  unfold DatabaseDecisionEngine.decide
  dsimp only
  by_cases h : nosqlScore a < sqlScore a
  · rw [if_pos (show sqlScore a > nosqlScore a from h)]
    exact ⟨⟨fun _ => h, fun _ => rfl⟩,
           ⟨fun hs => absurd hs (by decide), fun hle => absurd h (not_lt.mpr hle)⟩,
           rfl⟩
  · rw [if_neg (show ¬sqlScore a > nosqlScore a from h)]
    exact ⟨⟨fun hs => absurd hs (by decide), fun hlt => absurd hlt h⟩,
           ⟨fun _ => le_of_not_lt h, fun _ => rfl⟩,
           rfl⟩

/-! ## C5 — `generate_nosql_schema` never emits indexes -/

/-- C5: for every input schema and collection name, the NoSQL artifact
produced by `generate_nosql_schema` has an empty `indexes` list. -/
theorem c5_nosql_indexes_empty (schema : Schema) (collection_name : String) :
    (generate_nosql_schema schema collection_name).indexes.length = 0 := rfl

/-! ## C6 — sampling and (absence of a) depth bound in
`_calculate_nesting_depth` -/

/-- A payload nested `n` arrays deep, used to exhibit unbounded depth. -/
def chainValue : Nat → Value
  | 0 => .int 0
  | n + 1 => .arr [chainValue n]

theorem depthElems_take (k : Nat) : ∀ (l : List Value) (d : Nat),
    depthElems k l d = depthElems k (l.take k) d := by
  induction k with
  | zero => intro l d; cases l <;> rfl
  | succ k ih =>
    intro l d
    cases l with
    | nil => rfl
    | cons v rest => simp only [List.take_succ_cons, depthElems, ih rest d]

theorem chainValue_depth (n : Nat) : ∀ d : Nat,
    calculate_nesting_depth (chainValue n) d = n + d := by
  induction n with
  | zero => intro d; show d = 0 + d; omega
  | succ n ih =>
    intro d
    show max (calculate_nesting_depth (chainValue n) (d + 1)) 0 = n + 1 + d
    rw [ih (d + 1)]
    omega

/-- C6 (amended): the nesting-depth walk examines at most 10 elements per
array level (replacing a list by its first 10 elements never changes the
result), but there is no hard depth cap: on a payload of `n` nested arrays the
reported depth is exactly `n`, growing without bound. -/
theorem c6_depth_sampled_but_uncapped :
    (∀ (l : List Value) (d : Nat),
      calculate_nesting_depth (.arr l) d = calculate_nesting_depth (.arr (l.take 10)) d)
    ∧ (∀ n : Nat, calculate_nesting_depth (chainValue n) 0 = n) := by
  constructor
  · intro l d
    cases l with
    | nil => rfl
    | cons v rest =>
      show depthElems 10 (v :: rest) (d + 1) = depthElems 10 ((v :: rest).take 10) (d + 1)
      exact depthElems_take 10 (v :: rest) (d + 1)
  · intro n
    simpa using chainValue_depth n 0

/-- C6 counterexample: the reported `nesting_depth` is *not* bounded by any
fixed constant — there is no `c` bounding `_calculate_nesting_depth` over all
payloads, refuting the claimed hard depth bound ("e.g. 3"). -/
theorem c6_counterexample :
    ¬ ∃ c : Nat, ∀ v : Value, calculate_nesting_depth v 0 ≤ c := by
  rintro ⟨c, h⟩
  have hc := h (chainValue (c + 1))
  rw [show calculate_nesting_depth (chainValue (c + 1)) 0 = c + 1 by
        simpa using chainValue_depth (c + 1) 0] at hc
  omega

/-! ## C2 — the tabularity invariant of the analyzer -/

theorem applyEvolutionHint_preserves (a : Analysis) (d : String) :
    (applyEvolutionHint a d).is_tabular = a.is_tabular
    ∧ (applyEvolutionHint a d).is_uniform = a.is_uniform
    ∧ (applyEvolutionHint a d).nested_fields = a.nested_fields := by
  unfold SchemaAnalyzer.applyEvolutionHint
  refine ⟨?_, ?_, ?_⟩ <;> split <;> rfl

theorem applySqlHint_preserves (a : Analysis) (d : String) (tags : List String) :
    (applySqlHint a d tags).is_tabular = a.is_tabular
    ∧ (applySqlHint a d tags).is_uniform = a.is_uniform
    ∧ (applySqlHint a d tags).nested_fields = a.nested_fields := by
  unfold SchemaAnalyzer.applySqlHint
  refine ⟨?_, ?_, ?_⟩ <;> split <;> rfl

theorem applyNoSqlHint_preserves (a : Analysis) (d : String) (tags : List String) :
    (applyNoSqlHint a d tags).is_tabular = a.is_tabular
    ∧ (applyNoSqlHint a d tags).is_uniform = a.is_uniform
    ∧ (applyNoSqlHint a d tags).nested_fields = a.nested_fields := by
  unfold SchemaAnalyzer.applyNoSqlHint
  refine ⟨?_, ?_, ?_⟩ <;> split <;> rfl

theorem applyOptimizeHint_preserves (a : Analysis) (ob : Option (List String)) :
    (applyOptimizeHint a ob).is_tabular = a.is_tabular
    ∧ (applyOptimizeHint a ob).is_uniform = a.is_uniform
    ∧ (applyOptimizeHint a ob).nested_fields = a.nested_fields := by
  unfold SchemaAnalyzer.applyOptimizeHint
  refine ⟨?_, ?_, ?_⟩ <;> split <;> rfl

theorem applyQueryHint_preserves (a : Analysis) (qf : Option (List String)) :
    (applyQueryHint a qf).is_tabular = a.is_tabular
    ∧ (applyQueryHint a qf).is_uniform = a.is_uniform
    ∧ (applyQueryHint a qf).nested_fields = a.nested_fields := by
  unfold SchemaAnalyzer.applyQueryHint
  refine ⟨?_, ?_, ?_⟩ <;> split <;> rfl

/-- Metadata hints never touch `is_tabular`, `is_uniform` or `nested_fields`. -/
theorem applyHints_preserves (a : Analysis) (m : Metadata) :
    (apply_metadata_hints a m).is_tabular = a.is_tabular
    ∧ (apply_metadata_hints a m).is_uniform = a.is_uniform
    ∧ (apply_metadata_hints a m).nested_fields = a.nested_fields := by
  unfold SchemaAnalyzer.apply_metadata_hints
  refine ⟨?_, ?_, ?_⟩ <;>
    simp only [applyQueryHint_preserves, applyOptimizeHint_preserves,
      applyNoSqlHint_preserves, applySqlHint_preserves, applyEvolutionHint_preserves]

/-- In `_analyze_array_of_objects`, `is_tabular` is by construction the
conjunction of `is_uniform` and emptiness of `nested_fields`. -/
theorem aoo_is_tabular_eq (d0 : Obj) (rest : List Obj) (a : Analysis) :
    (analyze_array_of_objects (d0 :: rest) a).is_tabular
      = ((analyze_array_of_objects (d0 :: rest) a).is_uniform
          && (analyze_array_of_objects (d0 :: rest) a).nested_fields.isEmpty) := rfl

theorem analyze_array_tabular (l : List Value) (a : Analysis)
    (h0 : a.is_tabular = false) :
    (analyze_array l a).is_tabular = true →
    (analyze_array l a).is_uniform = true ∧ (analyze_array l a).nested_fields = [] := by
  match l with
  | [] =>
    intro h
    simp [SchemaAnalyzer.analyze_array] at h
  | v :: vs =>
    intro h
    by_cases hall : (v :: vs).all isObjV = true
    · have he : analyze_array (v :: vs) a
          = analyze_array_of_objects (objFieldsOf v :: vs.map objFieldsOf)
              { a with array_length := some (v :: vs).length,
                       element_types := SchemaAnalyzer.elementTypes ((v :: vs).take 100) } := by
        unfold SchemaAnalyzer.analyze_array
        rw [if_pos hall, List.map_cons]
      rw [he] at h ⊢
      have hb := (aoo_is_tabular_eq (objFieldsOf v) (vs.map objFieldsOf) _) ▸ h
      obtain ⟨h1, h2⟩ : _ ∧ _ := by simpa using hb
      exact ⟨h1, h2⟩
    · have he : analyze_array (v :: vs) a
          = { a with array_length := some (v :: vs).length,
                     element_types := SchemaAnalyzer.elementTypes ((v :: vs).take 100),
                     is_nested := (v :: vs).any (fun w => isObjV w || isArrV w) } := by
        unfold SchemaAnalyzer.analyze_array
        rw [if_neg hall]
      rw [he] at h
      have hfalse : a.is_tabular = true := h
      rw [h0] at hfalse
      cases hfalse

theorem dispatch_tabular (v : Value) (h0 : (baseAnalysis v).is_tabular = false) :
    (analyzeDispatch v (baseAnalysis v)).is_tabular = true →
    (analyzeDispatch v (baseAnalysis v)).is_uniform = true
    ∧ (analyzeDispatch v (baseAnalysis v)).nested_fields = [] := by
  cases v with
  | arr l => exact analyze_array_tabular l (baseAnalysis (.arr l)) h0
  | obj o =>
    intro h
    rw [show (analyzeDispatch (.obj o) (baseAnalysis (.obj o))).is_tabular
          = (baseAnalysis (.obj o)).is_tabular from rfl, h0] at h
    cases h
  | null => intro h; cases h
  | bool b => intro h; cases h
  | int n => intro h; cases h
  | float q => intro h; cases h
  | str s => intro h; cases h

/-- C2: for every analyzed value (with or without metadata hints), if the
analysis reports `is_tabular` then it also reports `is_uniform` and its
`nested_fields` set is empty. -/
theorem c2_tabular_implies_uniform_flat (v : Value) (metadata : Option Metadata) :
    (analyze_json_structure v metadata).is_tabular = true →
    (analyze_json_structure v metadata).is_uniform = true
    ∧ (analyze_json_structure v metadata).nested_fields = [] := by
  cases metadata with
  | none => exact dispatch_tabular v rfl
  | some m =>
    intro h
    have hp := applyHints_preserves (analyzeDispatch v (baseAnalysis v)) m
    have hA := dispatch_tabular v rfl (by rw [← hp.1]; exact h)
    refine ⟨?_, ?_⟩
    · show (apply_metadata_hints (analyzeDispatch v (baseAnalysis v)) m).is_uniform = true
      rw [hp.2.1]; exact hA.1
    · show (apply_metadata_hints (analyzeDispatch v (baseAnalysis v)) m).nested_fields = []
      rw [hp.2.2]; exact hA.2

/-- C2 witness: the invariant instantiated at Scenario A, whose analysis is
tabular. -/
theorem c2_witness :
    (analyze_json_structure scenarioA none).is_uniform = true
    ∧ (analyze_json_structure scenarioA none).nested_fields = [] :=
  c2_tabular_implies_uniform_flat scenarioA none (by decide)

/-! ## C3 — Scenario A end to end -/

/-- C3 counterexample: on Scenario A the code reports `nesting_depth = 1`
(`_calculate_nesting_depth` counts the flat object itself as one level), not 0;
consequently the depth rule contributes sql+1/nosql+1 instead of sql+2, the
scores are 10 vs 1 and the confidence is 9 — refuting the claimed
`nesting_depth=0`, `sql_score=11`, `confidence=11`. -/
theorem c3_counterexample :
    ¬((analyze_json_structure scenarioA none).nesting_depth = 0
      ∧ (DatabaseDecisionEngine.decide (analyze_json_structure scenarioA none)).sql_score = 11
      ∧ (DatabaseDecisionEngine.decide (analyze_json_structure scenarioA none)).confidence = 11) := by
  decide

/-- C3 (amended): for Scenario A with no hints, analysis yields
`is_tabular`, `is_uniform`, `nesting_depth = 1` and a relationship candidate
`{field := "order_id", inferred_table := "order"}`; `decide` yields
`sql_score = 10`, `nosql_score = 1`, backend `sql`, confidence `9`; and the
inferred primary table contains `id` (integer, primary key, unique index),
`name` (text), `order_id` (integer, foreign key, non-unique index) with one
many-to-one relationship producing exactly one `add_foreign_key` statement. -/
theorem c3_scenarioA_amended :
    analysisA.is_tabular = true
    ∧ analysisA.is_uniform = true
    ∧ analysisA.nesting_depth = 1
    ∧ ({ field := "order_id", type := "int", likely_foreign_key := true,
         inferred_table := "order" } : RelCandidate) ∈ analysisA.relationship_candidates
    ∧ (DatabaseDecisionEngine.decide analysisA).sql_score = 10
    ∧ (DatabaseDecisionEngine.decide analysisA).nosql_score = 1
    ∧ (DatabaseDecisionEngine.decide analysisA).backend = "sql"
    ∧ (DatabaseDecisionEngine.decide analysisA).confidence = 9
    ∧ schemaA.tables.length = 1
    ∧ mainTableA.type = "primary"
    ∧ ({ name := "id", type := "integer", required := true, nullable := false,
         is_primary_key := true, is_foreign_key := false } : FieldDef) ∈ mainTableA.fields
    ∧ ({ name := "name", type := "text", required := true, nullable := false } : FieldDef)
        ∈ mainTableA.fields
    ∧ ({ name := "order_id", type := "integer", required := true, nullable := false,
         is_primary_key := false, is_foreign_key := true } : FieldDef) ∈ mainTableA.fields
    ∧ ({ name := "idx_pk_id", fields := ["id"], type := "primary", unique := true } : IndexDef)
        ∈ mainTableA.indexes
    ∧ ({ name := "idx_fk_order_id", fields := ["order_id"], type := "index",
         unique := false } : IndexDef) ∈ mainTableA.indexes
    ∧ mainTableA.relationships
        = [{ type := "many_to_one", field := "order_id", references_table := "order",
             references_field := "id" }]
    ∧ ((generate_sql_schema schemaA "").sql_statements.filter
        (fun s => s.type == "add_foreign_key")).length = 1 := by
  decide

/-! ## C10 — a single object is structurally biased toward NoSQL -/

theorem nosqlScore_ge_two (a : Analysis) (h : a.is_uniform = false) :
    2 ≤ nosqlScore a := by
  unfold DatabaseDecisionEngine.nosqlScore
  have h2 : (0:Int) ≤ (if a.nesting_depth = 0 then 0 else if a.nesting_depth ≤ 2 then 1 else 3) := by
    split_ifs <;> omega
  have h3 : (0:Int) ≤ (if a.has_arrays_in_objects then 2 else 0) := by
    split_ifs <;> omega
  have h4 : (0:Int) ≤ (if a.schema_evolution_expected then 3 else 0) := by
    split_ifs <;> omega
  have h5 : (0:Int) ≤ (if a.prefer_sql then 0 else if a.prefer_nosql then 5 else 0) := by
    split_ifs <;> omega
  have h6 : (0:Int) ≤ (if 10000 < a.array_length.getD 0 then (1:Int) else 0) := by
    split_ifs <;> omega
  rw [h, if_neg (show ¬(false = true) by decide)]
  omega

theorem reason_nonuniform_mem (a : Analysis) (h : a.is_uniform = false) :
    "Non-uniform structure favors NoSQL" ∈ decideReasons a := by
  unfold DatabaseDecisionEngine.decideReasons
  rw [h, if_neg (show ¬(false = true) by decide)]
  split_ifs <;> decide

theorem reason_uniform_not_mem (a : Analysis) (h : a.is_uniform = false) :
    "Uniform structure favors SQL" ∉ decideReasons a := by
  unfold DatabaseDecisionEngine.decideReasons
  rw [h, if_neg (show ¬(false = true) by decide)]
  split_ifs <;> decide

theorem reason_tabular_not_mem (a : Analysis) (h : a.is_tabular = false) :
    "Tabular data is ideal for SQL" ∉ decideReasons a := by
  unfold DatabaseDecisionEngine.decideReasons
  rw [h, if_neg (show ¬(false = true) by decide)]
  split_ifs <;> decide

/-- C10: for every single-object payload (with any metadata), the analysis
never sets `is_uniform` or `is_tabular`, so `decide` takes the non-uniformity
branch (adding 2 to the NoSQL score and recording its reason) while the
uniformity (+3 sql) and tabularity (+4 sql) rules never fire. -/
theorem c10_single_object_biased_nosql (o : Obj) (metadata : Option Metadata) :
    (analyze_json_structure (.obj o) metadata).is_uniform = false
    ∧ (analyze_json_structure (.obj o) metadata).is_tabular = false
    ∧ 2 ≤ (DatabaseDecisionEngine.decide (analyze_json_structure (.obj o) metadata)).nosql_score
    ∧ "Non-uniform structure favors NoSQL"
        ∈ (DatabaseDecisionEngine.decide (analyze_json_structure (.obj o) metadata)).reasons
    ∧ "Uniform structure favors SQL"
        ∉ (DatabaseDecisionEngine.decide (analyze_json_structure (.obj o) metadata)).reasons
    ∧ "Tabular data is ideal for SQL"
        ∉ (DatabaseDecisionEngine.decide (analyze_json_structure (.obj o) metadata)).reasons := by
  have hu : (analyze_json_structure (.obj o) metadata).is_uniform = false := by
    cases metadata with
    | none => rfl
    | some m =>
      show (apply_metadata_hints (analyzeDispatch (.obj o) (baseAnalysis (.obj o))) m).is_uniform
        = false
      rw [(applyHints_preserves (analyzeDispatch (.obj o) (baseAnalysis (.obj o))) m).2.1]
      rfl
  have ht : (analyze_json_structure (.obj o) metadata).is_tabular = false := by
    cases metadata with
    | none => rfl
    | some m =>
      show (apply_metadata_hints (analyzeDispatch (.obj o) (baseAnalysis (.obj o))) m).is_tabular
        = false
      rw [(applyHints_preserves (analyzeDispatch (.obj o) (baseAnalysis (.obj o))) m).1]
      rfl
  exact ⟨hu, ht, nosqlScore_ge_two _ hu, reason_nonuniform_mem _ hu,
         reason_uniform_not_mem _ hu, reason_tabular_not_mem _ ht⟩

/-! ## C9 — `save_manifest` writes an empty history and fully replaces -/

/-- Setting the manifest on the matching document: lookup afterwards finds the
new manifest, whatever the document held before. -/
theorem get_manifest_map_set (file_id : String) (m : Manifest) (now : String) :
    ∀ store : ManifestStore, store.any (fun p => p.1 == file_id) = true →
      SchemaManifestManager.get_manifest (store.map (fun p =>
        if (p.1 == file_id) = true
        then (p.1, { p.2 with schema_manifest := some m, updated_at := now })
        else p)) file_id = some m := by
  intro store
  induction store with
  | nil => intro h; cases h
  | cons q rest ih =>
    intro h
    rw [List.map_cons]
    by_cases hq : (q.1 == file_id) = true
    · rw [if_pos hq]
      unfold SchemaManifestManager.get_manifest
      rw [List.find?_cons]
      try dsimp only
      rw [hq]
    · have hqf : (q.1 == file_id) = false := by
        cases hb : (q.1 == file_id)
        · rfl
        · exact absurd hb hq
      rw [if_neg hq]
      have hrest : rest.any (fun p => p.1 == file_id) = true := by
        rw [List.any_cons, hqf, Bool.false_or] at h
        exact h
      unfold SchemaManifestManager.get_manifest
      rw [List.find?_cons]
      try dsimp only
      rw [hqf]
      exact ih hrest

/-- Inserting a fresh document at the end of a store that has no document for
`file_id`: lookup afterwards finds the new manifest. -/
theorem get_manifest_append_new (file_id : String) (m : Manifest) (now : String) :
    ∀ store : ManifestStore, store.any (fun p => p.1 == file_id) = false →
      SchemaManifestManager.get_manifest
        (store ++ [(file_id, { schema_manifest := some m, updated_at := now })])
        file_id = some m := by
  intro store
  induction store with
  | nil =>
    intro _
    unfold SchemaManifestManager.get_manifest
    rw [List.nil_append, List.find?_cons]
    rw [show (file_id == file_id) = true by simp]
  | cons q rest ih =>
    intro h
    rw [List.any_cons, Bool.or_eq_false_iff] at h
    rw [List.cons_append]
    unfold SchemaManifestManager.get_manifest
    rw [List.find?_cons]
    try dsimp only
    rw [h.1]
    exact ih h.2

/-- After the upsert, the stored manifest under `file_id` is exactly the new
one, whatever the store held before. -/
theorem get_upsertManifest (store : ManifestStore) (file_id : String)
    (m : Manifest) (now : String) :
    get_manifest (upsertManifest store file_id m now) file_id = some m := by
  unfold SchemaManifestManager.upsertManifest
  by_cases h : store.any (fun p => p.1 == file_id) = true
  · rw [if_pos h]
    exact get_manifest_map_set file_id m now store h
  · rw [if_neg h]
    exact get_manifest_append_new file_id m now store (by
      cases hb : store.any (fun p => p.1 == file_id)
      · rfl
      · exact absurd hb h)

/-- C9: every `save_manifest` stores a manifest whose `history` is the empty
list; the upsert keyed by `file_id` fully replaces whatever was stored before
(the resulting lookup is the same for any two prior stores, so no operation
ever appends to a stored manifest's history). -/
theorem c9_save_manifest_overwrites (store : ManifestStore) (file_id : String)
    (schema : Schema) (storage_backend : String) (metadata : List (String × String))
    (now : String) :
    ∃ m : Manifest,
      get_manifest ((save_manifest store file_id schema storage_backend metadata now).1)
          file_id = some m
      ∧ m.history = []
      ∧ ∀ store₂ : ManifestStore,
          get_manifest ((save_manifest store₂ file_id schema storage_backend metadata now).1)
            file_id = some m := by
  refine ⟨{ file_id := file_id, schema_version := schema.version,
            storage_backend := storage_backend, schema := schema,
            metadata := metadata, created_at := now, history := [] }, ?_, rfl, ?_⟩
  · exact get_upsertManifest store file_id _ now
  · intro store₂
    exact get_upsertManifest store₂ file_id _ now

/-! ## C7 — (absence of) table-name collision handling in SQL generation -/

theorem createStmts_type (tables : List Table) (tpfx : String) :
    ∀ s ∈ createStmts tables tpfx, s.type = "create_table" := by
  intro s hs
  rcases List.mem_map.mp hs with ⟨t, _, rfl⟩
  rfl

theorem indexStmts_type (tables : List Table) (tpfx : String) :
    ∀ s ∈ indexStmts tables tpfx, s.type = "create_index" := by
  intro s hs
  rcases List.mem_flatten.mp hs with ⟨inner, hinner, hs'⟩
  rcases List.mem_map.mp hinner with ⟨t, _, rfl⟩
  rcases List.mem_map.mp hs' with ⟨i, _, rfl⟩
  rfl

theorem fkStmts_type (tables : List Table) (tpfx : String) :
    ∀ s ∈ fkStmts tables tpfx, s.type = "add_foreign_key" := by
  intro s hs
  rcases List.mem_flatten.mp hs with ⟨inner, hinner, hs'⟩
  rcases List.mem_map.mp hinner with ⟨t, _, rfl⟩
  rcases List.mem_map.mp hs' with ⟨r, _, rfl⟩
  rfl

/-- C7 (amended): `generate_sql_schema` performs no collision handling at all:
it never fails (it is a total function), every table name is passed through
unchanged — one `create_table` statement per input table, in order, keeping
whatever duplicate names the schema contains — and the artifact carries no
warning of any kind. -/
theorem c7_names_passed_through (schema : Schema) (tpfx : String) :
    ((generate_sql_schema schema tpfx).sql_statements.filter
        (fun s => s.type == "create_table")).map (fun s => s.table)
      = schema.tables.map (fun t => t.name) := by
  show ((createStmts schema.tables tpfx ++ indexStmts schema.tables tpfx
          ++ fkStmts schema.tables tpfx).filter
        (fun s => s.type == "create_table")).map (fun s => s.table)
      = schema.tables.map (fun t => t.name)
  rw [List.filter_append, List.filter_append]
  rw [List.filter_eq_self.mpr (fun s hs => by
        rw [createStmts_type schema.tables tpfx s hs]; rfl)]
  rw [List.filter_eq_nil_iff.mpr (fun s hs => by
        rw [indexStmts_type schema.tables tpfx s hs]; decide)]
  rw [List.filter_eq_nil_iff.mpr (fun s hs => by
        rw [fkStmts_type schema.tables tpfx s hs]; decide)]
  rw [List.append_nil, List.append_nil]
  unfold SqlSchemaGenerator.createStmts
  rw [List.map_map]
  rfl

/-- The payload `[{"id":1,"main_data":{"x":1}}]`: its nested object field is
named like the main table, so the inferred related table collides with
`main_data`. -/
def collideValue : Value :=
  .arr [.obj [("id", .int 1), ("main_data", .obj [("x", .int 1)])]]

def collideSchema : Schema :=
  infer_json_schema collideValue (analyze_json_structure collideValue none)

/-- C7 counterexample: on a schema whose related table collides with the main
table name, SQL generation emits two `create_table` statements with the *same*
table name `main_data` — no disambiguating suffix is appended to either, and
the artifact records no warning. -/
theorem c7_counterexample :
    ((generate_sql_schema collideSchema "").sql_statements.filter
        (fun s => s.type == "create_table")).map (fun s => s.table)
      = ["main_data", "main_data"] := by
  decide

/-! ## C8 — which tables actually get the suggested indexes -/

/-- A fold whose step only ever extends its accumulator preserves
membership. -/
theorem foldl_extends {α β : Type} (step : List α → β → List α)
    (hstep : ∀ acc x, acc ⊆ step acc x) :
    ∀ (l : List β) (acc : List α), acc ⊆ l.foldl step acc := by
  intro l
  induction l with
  | nil => intro acc a ha; exact ha
  | cons x xs ih => intro acc a ha; exact ih (step acc x) (hstep acc x ha)

theorem pkfkStep_extends : ∀ (acc : List IndexDef) (f : FieldDef), acc ⊆ pkfkStep acc f := by
  intro acc f
  unfold SchemaInferrer.pkfkStep
  split_ifs <;> first
    | exact List.subset_append_left _ _
    | exact fun a ha => ha

theorem optStep_extends (fields : List FieldDef) :
    ∀ (acc : List IndexDef) (opt : String), acc ⊆ optStep fields acc opt := by
  intro acc opt
  unfold SchemaInferrer.optStep
  split_ifs <;> first
    | exact List.subset_append_left _ _
    | exact fun a ha => ha

theorem commonStep_extends : ∀ (acc : List IndexDef) (f : FieldDef), acc ⊆ commonStep acc f := by
  intro acc f
  unfold SchemaInferrer.commonStep
  split_ifs <;> first
    | exact List.subset_append_left _ _
    | exact fun a ha => ha

theorem pk_mem_pkfkFold (f : FieldDef) (hpk : f.is_primary_key = true) :
    ∀ (fields : List FieldDef) (acc : List IndexDef), f ∈ fields →
      pkIndexFor f ∈ fields.foldl pkfkStep acc := by
  intro fields
  induction fields with
  | nil => intro acc h; cases h
  | cons g rest ih =>
    intro acc hf
    rw [List.foldl_cons]
    rcases List.mem_cons.mp hf with rfl | hf
    · refine foldl_extends pkfkStep pkfkStep_extends rest (pkfkStep acc f) ?_
      unfold SchemaInferrer.pkfkStep
      rw [if_pos hpk]
      exact List.mem_append_right _ (List.mem_singleton.mpr rfl)
    · exact ih (pkfkStep acc g) hf

theorem fk_mem_pkfkFold (f : FieldDef) (hpk : f.is_primary_key = false)
    (hfk : f.is_foreign_key = true) :
    ∀ (fields : List FieldDef) (acc : List IndexDef), f ∈ fields →
      fkIndexFor f ∈ fields.foldl pkfkStep acc := by
  intro fields
  induction fields with
  | nil => intro acc h; cases h
  | cons g rest ih =>
    intro acc hf
    rw [List.foldl_cons]
    rcases List.mem_cons.mp hf with rfl | hf
    · refine foldl_extends pkfkStep pkfkStep_extends rest (pkfkStep acc f) ?_
      unfold SchemaInferrer.pkfkStep
      rw [if_neg (by rw [hpk]; exact Bool.false_ne_true), if_pos hfk]
      exact List.mem_append_right _ (List.mem_singleton.mpr rfl)
    · exact ih (pkfkStep acc g) hf

theorem pk_mem_suggest_indexes (fields : List FieldDef) (a : Analysis) (f : FieldDef)
    (hf : f ∈ fields) (hpk : f.is_primary_key = true) :
    pkIndexFor f ∈ suggest_indexes fields a := by
  have h1 := pk_mem_pkfkFold f hpk fields [] hf
  have h2 := foldl_extends (optStep fields) (optStep_extends fields)
    a.optimization_fields (fields.foldl pkfkStep []) h1
  exact foldl_extends commonStep commonStep_extends fields _ h2

theorem fk_mem_suggest_indexes (fields : List FieldDef) (a : Analysis) (f : FieldDef)
    (hf : f ∈ fields) (hpk : f.is_primary_key = false) (hfk : f.is_foreign_key = true) :
    fkIndexFor f ∈ suggest_indexes fields a := by
  have h1 := fk_mem_pkfkFold f hpk hfk fields [] hf
  have h2 := foldl_extends (optStep fields) (optStep_extends fields)
    a.optimization_fields (fields.foldl pkfkStep []) h1
  exact foldl_extends commonStep commonStep_extends fields _ h2

/-- C8 (amended): `_suggest_indexes` — which the inferrer applies only to the
*main* table — does give every primary-key field a unique index and every
(non-primary) foreign-key field a non-unique index; but the junction and
related tables built for nested fields are always created with an *empty*
`indexes` list, so the claimed invariant holds only for the primary table. -/
theorem c8_amended_indexes (fields : List FieldDef) (a : Analysis) (f : FieldDef)
    (hf : f ∈ fields) :
    (f.is_primary_key = true → pkIndexFor f ∈ suggest_indexes fields a)
    ∧ (f.is_primary_key = false → f.is_foreign_key = true →
        fkIndexFor f ∈ suggest_indexes fields a)
    ∧ (∀ (field_name : String) (sample_values : List Value) (parent_table : String),
        (create_related_table_from_array field_name sample_values parent_table).indexes = []
        ∧ (create_related_table_from_object field_name sample_values parent_table).indexes
            = []) :=
  ⟨fun hpk => pk_mem_suggest_indexes fields a f hf hpk,
   fun hpk hfk => fk_mem_suggest_indexes fields a f hf hpk hfk,
   fun _ _ _ => ⟨rfl, rfl⟩⟩

/-- C8 witness: the amended statement instantiated at a two-field table. -/
theorem c8_witness :
    (pkIndexFor { name := "id", type := "integer", is_primary_key := true }
      ∈ suggest_indexes
          [{ name := "id", type := "integer", is_primary_key := true },
           { name := "user_id", type := "integer", is_foreign_key := true }] {})
    ∧ ((create_related_table_from_array "tags" [] "main_data").indexes = []
        ∧ (create_related_table_from_object "info" [] "main_data").indexes = []) := by
  have h := c8_amended_indexes
    [{ name := "id", type := "integer", is_primary_key := true },
     { name := "user_id", type := "integer", is_foreign_key := true }] {}
    { name := "id", type := "integer", is_primary_key := true }
    (by decide)
  exact ⟨h.1 (by decide), (h.2.2 "tags" [] "main_data").1, (h.2.2 "info" [] "main_data").2⟩

/-- The payload `[{"id":1,"tags":[1,2]}]`, whose nested array field produces a
junction table. -/
def junctionValue : Value := .arr [.obj [("id", .int 1), ("tags", .arr [.int 1, .int 2])]]

def junctionTables : List Table :=
  infer_tables_from_json_array [[("id", .int 1), ("tags", .arr [.int 1, .int 2])]]
    (analyze_json_structure junctionValue none)

def junctionTable : Table := junctionTables.getD 1 { name := "", type := "" }

/-- C8 counterexample: the junction table inferred for the `tags` field has a
field marked `is_primary_key` (and one marked `is_foreign_key`) but an *empty*
`indexes` list — so quantified over all tables of the `LogicalSchema`,
including junction tables, the claimed pk-unique-index/fk-index invariant is
false. -/
theorem c8_counterexample :
    junctionTable ∈ junctionTables
    ∧ junctionTable.type = "junction"
    ∧ junctionTable.fields.any (fun f => f.is_primary_key) = true
    ∧ junctionTable.fields.any (fun f => f.is_foreign_key) = true
    ∧ junctionTable.indexes = [] := by
  decide

/-! ## C4 — structure of the generated SQL artifact -/

theorem pk_name_mem_primaryKeys (t : Table) (f : FieldDef) (hf : f ∈ t.fields)
    (hpk : f.is_primary_key = true) : f.name ∈ primaryKeysOf t := by
  unfold SqlSchemaGenerator.primaryKeysOf
  exact List.mem_map.mpr ⟨f, List.mem_filter.mpr ⟨hf, hpk⟩, rfl⟩

theorem createTableClauses_with_pk (t : Table) (h : primaryKeysOf t ≠ []) :
    createTableClauses t
      = t.fields.map generate_field_definition ++ [mkPrimaryKeyClause (primaryKeysOf t)] := by
  show (if (primaryKeysOf t).isEmpty = true then t.fields.map generate_field_definition
        else t.fields.map generate_field_definition ++ [mkPrimaryKeyClause (primaryKeysOf t)])
      = t.fields.map generate_field_definition ++ [mkPrimaryKeyClause (primaryKeysOf t)]
  rw [if_neg (fun hc => h (List.isEmpty_iff.mp hc))]

theorem fk_filter_eq (schema : Schema) (tpfx : String) :
    (generate_sql_schema schema tpfx).sql_statements.filter
        (fun s => s.type == "add_foreign_key")
      = fkStmts schema.tables tpfx := by
  show (createStmts schema.tables tpfx ++ indexStmts schema.tables tpfx
          ++ fkStmts schema.tables tpfx).filter (fun s => s.type == "add_foreign_key")
      = fkStmts schema.tables tpfx
  rw [List.filter_append, List.filter_append]
  rw [List.filter_eq_nil_iff.mpr (fun s hs => by
        rw [createStmts_type schema.tables tpfx s hs]; decide)]
  rw [List.filter_eq_nil_iff.mpr (fun s hs => by
        rw [indexStmts_type schema.tables tpfx s hs]; decide)]
  rw [List.filter_eq_self.mpr (fun s hs => by
        rw [fkStmts_type schema.tables tpfx s hs]; rfl)]
  rw [List.nil_append, List.nil_append]

theorem fkStmts_length (tables : List Table) (tpfx : String)
    (hrel : ∀ t ∈ tables, ∀ r ∈ t.relationships, r.type = "many_to_one") :
    (fkStmts tables tpfx).length
      = (tables.map (fun t => t.relationships.length)).sum := by
  unfold SqlSchemaGenerator.fkStmts
  rw [List.length_flatten, List.map_map]
  rw [List.map_congr_left (fun t ht => by
    show ((t.relationships.filter
        (fun r => r.type == "many_to_one" || r.type == "one_to_one")).map _).length
      = t.relationships.length
    rw [List.length_map]
    rw [List.filter_eq_self.mpr (fun r hr => by rw [hrel t ht r hr]; rfl)])]

theorem get_append_mem_right {α : Type} (l₁ l₂ : List α) (i : Nat)
    (hi : i < (l₁ ++ l₂).length) (hge : l₁.length ≤ i) :
    (l₁ ++ l₂).get ⟨i, hi⟩ ∈ l₂ := by
  rw [List.get_eq_getElem, List.getElem_append_right hge]
  exact List.getElem_mem _

theorem get_append_left_eq {α : Type} (l₁ l₂ : List α) (i : Nat)
    (hi : i < (l₁ ++ l₂).length) (hlt : i < l₁.length) :
    (l₁ ++ l₂).get ⟨i, hi⟩ = l₁.get ⟨i, hlt⟩ := by
  rw [List.get_eq_getElem, List.get_eq_getElem, List.getElem_append_left hlt]

/-- In a concatenation `A ++ B ++ D` where property `p` holds only of the
elements of `A` and property `q` only of the elements of `D`, every position
satisfying `p` precedes every position satisfying `q`. -/
theorem index_lt_of_get_split {α : Type} (A B D : List α) (p q : α → Prop)
    (hpB : ∀ x ∈ B, ¬p x) (hpD : ∀ x ∈ D, ¬p x)
    (hqA : ∀ x ∈ A, ¬q x) (hqB : ∀ x ∈ B, ¬q x)
    (i j : Nat) (hi : i < (A ++ B ++ D).length) (hj : j < (A ++ B ++ D).length)
    (hp : p ((A ++ B ++ D).get ⟨i, hi⟩)) (hq : q ((A ++ B ++ D).get ⟨j, hj⟩)) :
    i < j := by
  have hiA : i < A.length := by
    by_contra hge
    push_neg at hge
    by_cases hAB : i < (A ++ B).length
    · have hmem : (A ++ B ++ D).get ⟨i, hi⟩ ∈ B := by
        rw [get_append_left_eq (A ++ B) D i hi hAB]
        exact get_append_mem_right A B i hAB hge
      exact absurd hp (hpB _ hmem)
    · push_neg at hAB
      have hmem : (A ++ B ++ D).get ⟨i, hi⟩ ∈ D :=
        get_append_mem_right (A ++ B) D i hi hAB
      exact absurd hp (hpD _ hmem)
  have hjAB : (A ++ B).length ≤ j := by
    by_contra hlt
    push_neg at hlt
    have hmem : (A ++ B ++ D).get ⟨j, hj⟩ ∈ A ++ B := by
      rw [get_append_left_eq (A ++ B) D j hj hlt]
      exact List.get_mem _ _ _
    rcases List.mem_append.mp hmem with hm | hm
    · exact absurd hq (hqA _ hm)
    · exact absurd hq (hqB _ hm)
  have hlen : A.length ≤ (A ++ B).length := by
    rw [List.length_append]; omega
  omega

/-- C4: under the data-model invariant that every relationship of the
`LogicalSchema` is `many_to_one`, the generated SQL artifact satisfies:
(a) for every table, each field marked `is_primary_key` appears in the single
`PRIMARY KEY (...)` clause that `_generate_create_table` appends after the
field definitions of that table's `CREATE TABLE` text;
(b) every relationship yields exactly one `add_foreign_key` statement (their
total count equals the total relationship count);
(c) every `create_table` statement precedes every `add_foreign_key` statement
in the artifact's statement order. -/
theorem c4_sql_generation_invariants (schema : Schema) (tpfx : String)
    (hrel : ∀ t ∈ schema.tables, ∀ r ∈ t.relationships, r.type = "many_to_one") :
    (∀ t ∈ schema.tables, ∀ f ∈ t.fields, f.is_primary_key = true →
        createTableClauses t
          = t.fields.map generate_field_definition
            ++ [mkPrimaryKeyClause (primaryKeysOf t)]
        ∧ f.name ∈ primaryKeysOf t)
    ∧ ((generate_sql_schema schema tpfx).sql_statements.filter
          (fun s => s.type == "add_foreign_key")).length
        = (schema.tables.map (fun t => t.relationships.length)).sum
    ∧ (∀ i j (hi : i < (generate_sql_schema schema tpfx).sql_statements.length)
          (hj : j < (generate_sql_schema schema tpfx).sql_statements.length),
        (((generate_sql_schema schema tpfx).sql_statements).get ⟨i, hi⟩).type
            = "create_table" →
        (((generate_sql_schema schema tpfx).sql_statements).get ⟨j, hj⟩).type
            = "add_foreign_key" →
        i < j) := by
  refine ⟨?_, ?_, ?_⟩
  · intro t ht f hf hpk
    have hmem := pk_name_mem_primaryKeys t f hf hpk
    have hne : primaryKeysOf t ≠ [] := by
      intro hnil
      rw [hnil] at hmem
      cases hmem
    exact ⟨createTableClauses_with_pk t hne, hmem⟩
  · rw [fk_filter_eq schema tpfx]
    exact fkStmts_length schema.tables tpfx hrel
  · intro i j hi hj hci hfj
    exact index_lt_of_get_split
      (createStmts schema.tables tpfx) (indexStmts schema.tables tpfx)
      (fkStmts schema.tables tpfx)
      (fun s => s.type = "create_table") (fun s => s.type = "add_foreign_key")
      (fun x hx hc => by
        have hc' : x.type = "create_table" := hc
        rw [indexStmts_type schema.tables tpfx x hx] at hc'
        exact absurd hc' (by decide))
      (fun x hx hc => by
        have hc' : x.type = "create_table" := hc
        rw [fkStmts_type schema.tables tpfx x hx] at hc'
        exact absurd hc' (by decide))
      (fun x hx hc => by
        have hc' : x.type = "add_foreign_key" := hc
        rw [createStmts_type schema.tables tpfx x hx] at hc'
        exact absurd hc' (by decide))
      (fun x hx hc => by
        have hc' : x.type = "add_foreign_key" := hc
        rw [indexStmts_type schema.tables tpfx x hx] at hc'
        exact absurd hc' (by decide))
      i j hi hj hci hfj

/-- C4 witness: the invariants instantiated on Scenario A's inferred schema. -/
theorem c4_witness :
    (createTableClauses mainTableA
        = mainTableA.fields.map generate_field_definition
          ++ [mkPrimaryKeyClause (primaryKeysOf mainTableA)]
      ∧ "id" ∈ primaryKeysOf mainTableA)
    ∧ ((generate_sql_schema schemaA "").sql_statements.filter
          (fun s => s.type == "add_foreign_key")).length
        = (schemaA.tables.map (fun t => t.relationships.length)).sum
    ∧ (0 : Nat) < 2 := by
  have h := c4_sql_generation_invariants schemaA "" (by decide)
  refine ⟨?_, h.2.1, ?_⟩
  · exact h.1 mainTableA (by decide)
      { name := "id", type := "integer", required := true, nullable := false,
        is_primary_key := true, is_foreign_key := false } (by decide) (by decide)
  · exact h.2.2 0 2 (by decide) (by decide) (by decide) (by decide)
